import Mathlib

/-!
Shallow embedding of the `neo4j-pessoal` personal-finance service
(`src/service/system.service.ts`, the repositories under `src/repository`,
and the validation module `src/validation/input.validation.ts`), together
with proofs about its debt-settlement, deposit and expense operations.

Monetary values are modelled as rationals; the JavaScript idiom
`Number(x.toFixed(2))` is modelled by `round2` (round half up at two
decimals).  The Neo4j store is modelled as an explicit `Store` value and
each Cypher query as a pure function on it.  Thrown errors are modelled by
`Except String`; an `Except.error` result carries no store, mirroring the
fact that in the source every mutation of the store happens inside the
all-or-nothing `Neo4jService.executeWrite` transaction (or a single
session write), while everything before it only reads.
-/

attribute [local semireducible] Rat.mul Rat.inv Rat.add Rat.sub
/-! ## Monetary rounding and cent values -/

/-- Rounding to two decimal places (round half up), the model of the
JavaScript `Number(x.toFixed(2))` applied to a monetary value. -/
def round2 (q : ℚ) : ℚ := ((round (100 * q) : ℤ) : ℚ) / 100

/-- A rational is a cent value when it is an integer number of hundredths,
i.e. an exact two-decimal monetary value. -/
def Cent (q : ℚ) : Prop := ∃ n : ℤ, q = (n : ℚ) / 100

/-! ## Data model (the entities of the Neo4j store) -/

/-- Debt status enumeration from `Debit.model.ts`
(`pending | partially_paid | paid`). -/
inductive DebtStatus where
  | pending
  | partially_paid
  | paid

deriving DecidableEq, Repr

/-- A `Person` node (`Person.model.ts`); `money` is optional in the store,
queries read it with `coalesce(p.money, 0)`. -/
structure Person where
  id : String
  name : String
  money : Option ℚ

deriving DecidableEq, Repr

/-- A `Debt` node as stored by `debt.entity.ts` / `Debit.model.ts`. -/
structure Debt where
  id : String
  title : String
  credor : String
  amount : Option ℚ
  status : DebtStatus
  tags : List String
  dueDate : String
  payDate : String
  totalInstallments : Option ℤ
  paidInstallments : ℤ
  installmentAmount : Option ℚ
  remainingAmount : Option ℚ

deriving DecidableEq, Repr

/-- A `Deposit` node as stored by `deposit.entity.ts`. -/
structure DepositRec where
  id : String
  name : String
  value : ℚ
  isLoan : Bool
  creditorName : String
  date : String

deriving DecidableEq, Repr

/-- An `Expense` node as stored by `expense.entity.ts`. -/
structure ExpenseRec where
  id : String
  description : String
  value : ℚ
  tags : List String
  date : String

deriving DecidableEq, Repr

/-- The graph store: persons plus the records each person owns through the
`HAS_BILL` / `HAS_DEPOSIT` / `HAS_EXPENSE` relationships, modelled as
(ownerId, record) pairs. -/
structure Store where
  persons : List Person
  debts : List (String × Debt)
  deposits : List (String × DepositRec)
  expenses : List (String × ExpenseRec)

deriving DecidableEq, Repr

/-! ## DTOs from the models of the source -/

/-- Input shape for debt registration (`DebtDTO`). -/
structure DebtDTO where
  title : String
  credor : String
  amount : Option ℚ
  status : Option DebtStatus
  tags : List String
  dueDate : Option String
  payDate : Option String
  totalInstallments : Option ℤ

deriving DecidableEq, Repr

/-- Input shape for deposit registration (`DepositDTO`). -/
structure DepositDTO where
  name : String
  value : ℚ
  isLoan : Option Bool
  creditorName : Option String
  date : Option String

deriving DecidableEq, Repr

/-- Input shape for expense registration (`ExpenseDTO`). -/
structure ExpenseDTO where
  description : String
  value : ℚ
  tags : Option (List String)
  date : Option String

deriving DecidableEq, Repr

/-- JavaScript `a || b` on an optional string: `null`, `undefined` and the
empty string are falsy. -/
def jsOr (o : Option String) (d : String) : String :=
  match o with
  | some s => if s = "" then d else s
  | none => d

/-! ## Validation layer, the model of the input-validation module -/

/-- Whitespace trimming (the model of the JavaScript `String.prototype.trim`),
computed on the character list of the string. -/
def jsTrim (s : String) : List Char :=
  ((s.data.dropWhile Char.isWhitespace).reverse.dropWhile Char.isWhitespace).reverse

/-- Model of `validateRequiredString`: fails unless the string is non-empty
after trimming. -/
def validateRequiredString (s : String) (fieldName : String) : Except String Unit :=
  if (jsTrim s).length = 0 then
    .error ("Campo obrigatório inválido: " ++ fieldName)
  else .ok ()

/-- Model of the exported `validateRequiredField` (alias of the string check). -/
def validateRequiredField (s : String) (fieldName : String) : Except String Unit :=
  validateRequiredString s fieldName

/-- Model of `validatePositiveNumber`: a monetary value must be finite and
strictly positive (finiteness is inherent to `ℚ`). -/
def validatePositiveNumber (v : ℚ) (fieldName : String) : Except String Unit :=
  if 0 < v then .ok ()
  else .error ("O campo " ++ fieldName ++ " deve ser um número maior que 0")

/-- Model of `validateInstallments`: an installment count must be an integer
(inherent to `ℤ`) that is at least 1. -/
def validateInstallments (v : ℤ) (fieldName : String) : Except String Unit :=
  if v < 1 then
    .error ("O campo " ++ fieldName ++ " deve ser um inteiro maior ou igual a 1")
  else .ok ()

/-- Model of `validateDebtInput`.  The `Array.isArray(tags)` check is
inherent to the `List` type, and status membership in the three-value
enumeration is inherent to `DebtStatus`. -/
def validateDebtInput (d : DebtDTO) : Except String Unit := do
  validateRequiredString d.title "title"
  validateRequiredString d.credor "credor"
  match d.amount with
  | some a => validatePositiveNumber a "amount"
  | none => pure ()
  match d.totalInstallments with
  | some n => validateInstallments n "totalInstallments"
  | none => pure ()

/-- Model of `validateDepositInput`. -/
def validateDepositInput (d : DepositDTO) : Except String Unit := do
  validateRequiredString d.name "name"
  validatePositiveNumber d.value "value"
  if d.isLoan = some true then
    validateRequiredString (jsOr d.creditorName "") "creditorName"
  else pure ()

/-- Model of `validatePayDebtInput`.  The service always passes an
installment count (its parameter defaults to 1), so the count branch of the
source always runs. -/
def validatePayDebtInput (userId debtId : String) (amount : Option ℚ)
    (installmentsToPay : ℤ) : Except String Unit := do
  validateRequiredString userId "userId"
  validateRequiredString debtId "debtId"
  match amount with
  | some a => validatePositiveNumber a "amount"
  | none => pure ()
  validateInstallments installmentsToPay "installmentsToPay"

/-- Modelled from the spec: `validateExpenseInput` is imported by
`system.service.ts` from the validation module but is absent from the
provided sources; following §4.1 of the specification it checks the
expense's description (string, non-empty after trimming) and its value
(finite, strictly greater than 0), returning silently otherwise. -/
def validateExpenseInput (e : ExpenseDTO) : Except String Unit := do
  validateRequiredString e.description "description"
  validatePositiveNumber e.value "value"

deriving instance DecidableEq for Except

/-! ## Store operations, the Cypher queries of the repositories -/

/-- Model of `BaseRepository.findById` on the `Person` label:
`MATCH (n:Person { id: $id }) RETURN n`. -/
def findPersonById (s : Store) (id : String) : Option Person :=
  s.persons.find? (fun p => p.id = id)

/-- The payer's balance as every query reads it: `coalesce(p.money, 0)`,
and 0 when the person does not exist. -/
def moneyOf (s : Store) (id : String) : ℚ :=
  ((findPersonById s id).map (fun p => p.money.getD 0)).getD 0

/-- Model of `DebtRepository.listDebtsByPersonId`:
`MATCH (p:Person { id: $personId })-[:HAS_BILL]->(d:Debt) RETURN d`. -/
def listDebtsByPersonId (s : Store) (personId : String) : List Debt :=
  (s.debts.filter (fun od => od.1 = personId)).map (fun od => od.2)

/-- The debt the payment path operates on:
`debts.find((item) => item.id === debtId)` over the listing. -/
def debtLookup (s : Store) (personId debtId : String) : Option Debt :=
  (listDebtsByPersonId s personId).find? (fun d => d.id = debtId)

/-- Model of `PersonRepository.addMoney`: `MATCH (p:Person { id })
SET p.money = coalesce(p.money, 0) + $amount`. -/
def addMoney (s : Store) (personId : String) (amount : ℚ) : Store :=
  { s with persons := s.persons.map (fun p =>
      if p.id = personId then { p with money := some (p.money.getD 0 + amount) } else p) }

/-- Model of the conditional debit used by `payDebt` and `register_expense`:
`MATCH (p:Person { id }) WHERE coalesce(p.money, 0) >= $amount
SET p.money = coalesce(p.money, 0) - $amount RETURN p`; zero returned
records (missing person or insufficient balance) make the caller throw,
aborting the enclosing transaction. -/
def conditionalDebit (s : Store) (personId : String) (amount : ℚ) :
    Except String Store :=
  match findPersonById s personId with
  | some p =>
      if amount ≤ p.money.getD 0 then
        .ok { s with persons := s.persons.map (fun q =>
          if q.id = personId then { q with money := some (q.money.getD 0 - amount) } else q) }
      else .error "Saldo insuficiente ou usuário não encontrado"
  | none => .error "Saldo insuficiente ou usuário não encontrado"

/-- Model of `PersonRepository.updateDebtPayment`: matches the
`(p:Person { id })-[:HAS_BILL]->(d:Debt { id })` pair and sets the debt's
status, paid installments, remaining amount and pay date. -/
def updateDebtPayment (s : Store) (personId debtId : String) (status : DebtStatus)
    (paidInstallments : ℤ) (remainingAmount : Option ℚ) (payDate : String) : Store :=
  { s with debts := s.debts.map (fun od =>
      if od.1 = personId ∧ od.2.id = debtId then
        (od.1,
          { od.2 with
              status := status
              paidInstallments := paidInstallments
              remainingAmount := remainingAmount
              payDate := payDate })
      else od) }

/-- Model of `DebtRepository.addDebt`: `MATCH (p:Person { id }) CREATE (d:Debt ...)
CREATE (p)-[:HAS_BILL]->(d)`; with no matching person nothing is created. -/
def addDebt (s : Store) (personId : String) (d : Debt) : Store :=
  if (findPersonById s personId).isSome then
    { s with debts := s.debts ++ [(personId, d)] }
  else s

/-- Model of `DepositRepository.addDeposit`: `MATCH (p:Person { id })
CREATE (d:Deposit ...) CREATE (p)-[:HAS_DEPOSIT]->(d)`; with no matching
person nothing is created. -/
def addDeposit (s : Store) (personId : String) (d : DepositRec) : Store :=
  if (findPersonById s personId).isSome then
    { s with deposits := s.deposits ++ [(personId, d)] }
  else s

/-- Model of `ExpenseRepository.addExpense` (run inside the expense
transaction): `MATCH (p:Person { id }) CREATE (e:Expense ...)`. -/
def addExpense (s : Store) (personId : String) (e : ExpenseRec) : Store :=
  if (findPersonById s personId).isSome then
    { s with expenses := s.expenses ++ [(personId, e)] }
  else s

/-! ## Debt settlement engine, the model of SystemService.payDebt -/

/-- The result record returned by `payDebt` (`DebtPaymentResult`). -/
structure DebtPaymentResult where
  success : Bool
  debtId : String
  installmentsPaidNow : ℤ
  paidInstallments : ℤ
  totalInstallments : Option ℤ
  remainingAmount : Option ℚ
  status : DebtStatus

deriving DecidableEq, Repr

/-- Local `hasFixedInstallments` of `payDebt` and `registerDebt`:
`typeof totalInstallments === 'number' && Number.isInteger(totalInstallments)
&& totalInstallments >= 1` (integrality is inherent to `ℤ`). -/
def debtHasFixed (d : Debt) : Bool :=
  match d.totalInstallments with
  | some n => decide (1 ≤ n)
  | none => false

/-- Local `hasKnownTotalAmount` of `payDebt`:
`typeof amount === 'number' && Number.isFinite(amount) && amount > 0`. -/
def debtHasKnownAmount (d : Debt) : Bool :=
  match d.amount with
  | some a => decide (0 < a)
  | none => false

/-- Local `remainingAmount` of `payDebt`: the stored remaining amount when
it is a finite number, else the total amount when known, else null. -/
def debtRemaining (d : Debt) : Option ℚ :=
  match d.remainingAmount with
  | some r => some r
  | none => if debtHasKnownAmount d then d.amount else none

/-- Local `remainingInstallments` of `payDebt`:
`Math.max(0, totalInstallments - paidInstallments)` under a fixed plan. -/
def remainingInstallmentsOf (d : Debt) : Option ℤ :=
  if debtHasFixed d then some (max 0 (d.totalInstallments.getD 0 - d.paidInstallments))
  else none

/-- Local `installmentAmount` of `payDebt`:
`Number(debt.installmentAmount || (hasFixed && hasKnown ?
Number((amount / totalInstallments).toFixed(2)) : 0))`; a stored `0` is
falsy in JavaScript and falls through to the derived value. -/
def debtInstallmentAmount (d : Debt) : ℚ :=
  let fallback : ℚ :=
    if debtHasFixed d && debtHasKnownAmount d then
      round2 (d.amount.getD 0 / ((d.totalInstallments.getD 0 : ℤ) : ℚ))
    else 0
  match d.installmentAmount with
  | some v => if v = 0 then fallback else v
  | none => fallback

/-- The per-installment accumulation loop of `payDebt`, walking `count`
installments 1-indexed from the next unpaid one: every installment that
does not complete the plan adds the flat installment amount, and one with
`paidInstallments + index >= totalInstallments` adds the remaining amount
minus the amount accumulated so far, rounded to two decimals. -/
def installmentWalk (rem ia : ℚ) (paid total : ℤ) : ℕ → ℚ
  | 0 => 0
  | n + 1 =>
      installmentWalk rem ia paid total n +
        (if total ≤ paid + ((n : ℤ) + 1) then
          round2 (rem - installmentWalk rem ia paid total n)
        else ia)

/-- Local `expectedAmount` of `payDebt`: computed only under a fixed
installment plan with a known remaining amount, as the two-decimal
rounding of the installment walk. -/
def expectedAmountOf (d : Debt) (installmentsToPay : ℤ) : Option ℚ :=
  if debtHasFixed d then
    match debtRemaining d with
    | none => none
    | some rem =>
        some (round2 (installmentWalk rem (debtInstallmentAmount d)
          d.paidInstallments (d.totalInstallments.getD 0) installmentsToPay.toNat))
  else none

/-- The read-only validation and amount computation of `payDebt`, from the
status check on the fetched debt up to the amount to charge: it rejects a
paid debt, a non-positive installment count, a count above the remaining
installments of a fixed plan, a missing explicit amount for a plan that is
not fully known, and an amount exceeding the known remaining amount. -/
def payDebtPlan (d : Debt) (amount : Option ℚ) (installmentsToPay : ℤ) :
    Except String ℚ :=
  if d.status = DebtStatus.paid then .error "Dívida já está paga"
  else if installmentsToPay < 1 then
    .error "A quantidade de parcelas para pagamento deve ser >= 1"
  else if debtHasFixed d = true ∧ (remainingInstallmentsOf d).getD 0 < installmentsToPay then
    .error ("Não é possível pagar " ++ toString installmentsToPay ++
      " parcelas. Restam " ++ toString ((remainingInstallmentsOf d).getD 0))
  else if (debtHasFixed d = false ∨ expectedAmountOf d installmentsToPay = none) ∧
      amount = none then
    .error "Informe o valor a pagar para cobranças com valor total indefinido"
  else
    match debtRemaining d with
    | some r =>
        if r < amount.getD ((expectedAmountOf d installmentsToPay).getD 0) then
          .error "O valor informado é maior que o saldo restante da dívida"
        else .ok (amount.getD ((expectedAmountOf d installmentsToPay).getD 0))
    | none => .ok (amount.getD ((expectedAmountOf d installmentsToPay).getD 0))

/-- Local `newRemainingAmount` of `payDebt`:
`Number(Math.max(0, remainingAmount - amountToPay).toFixed(2))` when the
remaining amount is known, null otherwise. -/
def newRemainingOf (d : Debt) (amountToPay : ℚ) : Option ℚ :=
  (debtRemaining d).map (fun r => round2 (max 0 (r - amountToPay)))

/-- Local `isFullyPaid` of `payDebt`: the new remaining amount reached 0,
or a fixed plan's installments are all paid. -/
def isFullyPaidOf (d : Debt) (amountToPay : ℚ) (newPaid : ℤ) : Bool :=
  (match newRemainingOf d amountToPay with
   | some nr => decide (nr ≤ 0)
   | none => false) ||
  (debtHasFixed d && decide (d.totalInstallments.getD 0 ≤ newPaid))

/-- Model of `SystemService.payDebt`.  `now` stands for the
`new Date().toISOString()` timestamp.  The conditional debit and the debt
update run inside one `Neo4jService.executeWrite` transaction; an error
from it aborts the whole call with no partial effect. -/
def payDebt (s : Store) (userId debtId : String) (amount : Option ℚ)
    (installmentsToPay : ℤ) (now : String) :
    Except String (Store × DebtPaymentResult) :=
  match validatePayDebtInput userId debtId amount installmentsToPay with
  | .error e => .error e
  | .ok _ =>
    match debtLookup s userId debtId with
    | none => .error "Dívida não encontrada"
    | some debt =>
      match payDebtPlan debt amount installmentsToPay with
      | .error e => .error e
      | .ok amountToPay =>
        match findPersonById s userId with
        | none => .error "Saldo insuficiente ou usuário não encontrado"
        | some u =>
          if u.money.getD 0 < amountToPay then
            .error "Saldo insuficiente ou usuário não encontrado"
          else
            match conditionalDebit s userId amountToPay with
            | .error e => .error e
            | .ok s1 =>
                .ok (updateDebtPayment s1 userId debtId
                      (if isFullyPaidOf debt amountToPay
                          (debt.paidInstallments + installmentsToPay) then
                        DebtStatus.paid else DebtStatus.partially_paid)
                      (debt.paidInstallments + installmentsToPay)
                      (newRemainingOf debt amountToPay) now,
                  { success := true, debtId := debtId,
                    installmentsPaidNow := installmentsToPay,
                    paidInstallments := debt.paidInstallments + installmentsToPay,
                    totalInstallments :=
                      if debtHasFixed debt then debt.totalInstallments else none,
                    remainingAmount := newRemainingOf debt amountToPay,
                    status := if isFullyPaidOf debt amountToPay
                          (debt.paidInstallments + installmentsToPay) then
                        DebtStatus.paid else DebtStatus.partially_paid })

/-- The store after a `payDebt` call: the new store on success, the
unchanged store on a thrown error (every mutation happens inside the
transaction, which aborts atomically). -/
def payDebtStore (s : Store) (userId debtId : String) (amount : Option ℚ)
    (installmentsToPay : ℤ) (now : String) : Store :=
  match payDebt s userId debtId amount installmentsToPay now with
  | .ok r => r.1
  | .error _ => s

/-- The result record of a successful `payDebt` call. -/
def payDebtResultOf (s : Store) (userId debtId : String) (amount : Option ℚ)
    (installmentsToPay : ℤ) (now : String) : Option DebtPaymentResult :=
  match payDebt s userId debtId amount installmentsToPay now with
  | .ok r => some r.2
  | .error _ => none

/-! ## Debt registration -/

/-- The debt record `registerDebt` passes to `DebtRepository.addDebt`:
`newId` stands for the generated `randomUUID()` and `now` for
`new Date().toISOString()`. -/
def newDebtRecord (debt : DebtDTO) (newId now : String) : Debt :=
  let hasFixed : Bool :=
    match debt.totalInstallments with
    | some n => decide (1 ≤ n)
    | none => false
  let totalInstallments : Option ℤ := if hasFixed then debt.totalInstallments else none
  let hasKnown : Bool :=
    match debt.amount with
    | some a => decide (0 < a)
    | none => false
  let installmentAmount : Option ℚ :=
    if hasFixed && hasKnown then
      some (round2 (debt.amount.getD 0 / ((totalInstallments.getD 0 : ℤ) : ℚ)))
    else none
  { id := newId
    title := debt.title
    credor := debt.credor
    amount := if hasKnown then debt.amount else none
    status := debt.status.getD DebtStatus.pending
    tags := debt.tags
    dueDate := jsOr debt.dueDate now
    payDate := jsOr debt.payDate "Não pago"
    totalInstallments := totalInstallments
    paidInstallments := 0
    installmentAmount := installmentAmount
    remainingAmount := if hasKnown then debt.amount else none }

/-- Model of `SystemService.registerDebt`: validation, then the creation
query. -/
def registerDebt (s : Store) (userId : String) (debt : DebtDTO)
    (newId now : String) : Except String Store :=
  match validateRequiredField userId "userId" with
  | .error e => .error e
  | .ok _ =>
    match validateDebtInput debt with
    | .error e => .error e
    | .ok _ => .ok (addDebt s userId (newDebtRecord debt newId now))

/-! ## Deposit registration and its commit points -/

/-- The deposit record `registerDeposit` passes to
`DepositRepository.addDeposit` (with the JavaScript `||` defaults for the
loan flag, creditor name and date). -/
def newDepositRecord (deposit : DepositDTO) (newId now : String) : DepositRec :=
  { id := newId
    name := deposit.name
    value := deposit.value
    isLoan := deposit.isLoan.getD false
    creditorName := jsOr deposit.creditorName "no name"
    date := jsOr deposit.date now }

/-- Model of `SystemService.registerDeposit`: validation, then the deposit
creation write, then the unconditional balance credit — two separate
session writes, with no shared transaction. -/
def registerDeposit (s : Store) (userId : String) (deposit : DepositDTO)
    (newId now : String) : Except String Store :=
  match validateRequiredField userId "userId" with
  | .error e => .error e
  | .ok _ =>
    match validateDepositInput deposit with
    | .error e => .error e
    | .ok _ =>
        .ok (addMoney (addDeposit s userId (newDepositRecord deposit newId now))
          userId deposit.value)

/-- The store after the first `k` of the two independently committed
session writes that a validated `registerDeposit` call issues: `k = 0`
before any write, `k = 1` after the deposit creation session has committed
but before the balance credit, `k ≥ 2` after both. -/
def registerDepositCommitted (s : Store) (userId : String) (deposit : DepositDTO)
    (newId now : String) : ℕ → Store
  | 0 => s
  | 1 => addDeposit s userId (newDepositRecord deposit newId now)
  | _ + 2 => addMoney (addDeposit s userId (newDepositRecord deposit newId now))
      userId deposit.value

/-- The claim that `registerDeposit`'s record creation and balance credit
are transactionally coupled: every reachable commit point shows either no
effect or both effects. -/
def RegisterDepositAtomic (s : Store) (userId : String) (deposit : DepositDTO)
    (newId now : String) : Prop :=
  ∀ k < 3, registerDepositCommitted s userId deposit newId now k = s ∨
    registerDepositCommitted s userId deposit newId now k =
      registerDepositCommitted s userId deposit newId now 2

/-! ## Expense registration -/

/-- Model of `SystemService.register_expense`: validation, two-decimal
rounding of the value, then one transaction performing the conditional
debit and the expense creation. -/
def register_expense (s : Store) (userId : String) (expense : ExpenseDTO)
    (newId now : String) : Except String Store :=
  match validateRequiredField userId "userId" with
  | .error e => .error e
  | .ok _ =>
    match validateExpenseInput expense with
    | .error e => .error e
    | .ok _ =>
      let value := round2 expense.value
      match conditionalDebit s userId value with
      | .error e => .error e
      | .ok s1 =>
          .ok (addExpense s1 userId
            { id := newId
              description := expense.description
              value := value
              tags := expense.tags.getD []
              date := jsOr expense.date now })

/-- The store after a `register_expense` call (unchanged on error). -/
def registerExpenseStore (s : Store) (userId : String) (expense : ExpenseDTO)
    (newId now : String) : Store :=
  match register_expense s userId expense newId now with
  | .ok s1 => s1
  | .error _ => s

/-! ## Payment sequences and the cent invariant -/

/-- One `payDebt` request in a sequence of calls. -/
structure PaymentCall where
  amount : Option ℚ
  installments : ℤ
  now : String

deriving DecidableEq, Repr

/-- Runs a sequence of `payDebt` calls against the same debt, recording for
each successful call the amount it charged (the payer's balance decrease);
`none` as soon as one call fails. -/
def runPayments (userId debtId : String) : Store → List PaymentCall →
    Option (Store × List ℚ)
  | s, [] => some (s, [])
  | s, c :: cs =>
      match payDebt s userId debtId c.amount c.installments c.now with
      | .ok r =>
          (runPayments userId debtId r.1 cs).map
            (fun p => (p.1, (moneyOf s userId - moneyOf r.1 userId) :: p.2))
      | .error _ => none

/-- The debt's remaining amount as read from the store (0 when the debt is
missing or its remaining amount is unknown). -/
def remOf (s : Store) (userId debtId : String) : ℚ :=
  ((debtLookup s userId debtId).bind Debt.remainingAmount).getD 0

/-- The debt is present with a known remaining amount `r`, and any stored
installment amount is an exact cent value. -/
def DebtCentInv (uid did : String) (s : Store) (r : ℚ) : Prop :=
  ∃ d, debtLookup s uid did = some d ∧ d.remainingAmount = some r ∧
    (∀ v, d.installmentAmount = some v → Cent v)

/-! ## Concrete fixtures for the witnesses and counterexamples -/

/-- The open-ended debt of the insufficient-funds witness. -/
def c2Debt : Debt :=
  { id := "d1"
    title := "T"
    credor := "C"
    amount := some 100
    status := DebtStatus.pending
    tags := []
    dueDate := "2024-01-01"
    payDate := "Não pago"
    totalInstallments := none
    paidInstallments := 0
    installmentAmount := none
    remainingAmount := some 100 }

/-- A one-person store with a 5-unit balance and one open-ended debt, used
by the insufficient-funds witness. -/
def c2Store : Store :=
  { persons := [{ id := "u1", name := "U", money := some 5 }]
    debts := [("u1", c2Debt)]
    deposits := []
    expenses := [] }

/-- The already paid debt of the terminal-status witness. -/
def c3Debt : Debt :=
  { id := "d1"
    title := "T"
    credor := "C"
    amount := some 100
    status := DebtStatus.paid
    tags := []
    dueDate := "2024-01-01"
    payDate := "2024-02-01"
    totalInstallments := some 2
    paidInstallments := 2
    installmentAmount := some 50
    remainingAmount := some 0 }

/-- A store holding an already paid debt, used by the terminal-status
witness. -/
def c3Store : Store :=
  { persons := [{ id := "u1", name := "U", money := some 1000 }]
    debts := [("u1", c3Debt)]
    deposits := []
    expenses := [] }

/-- The 3-installment debt with 2 installments paid of the ceiling
witness. -/
def c4Debt : Debt :=
  { id := "d1"
    title := "T"
    credor := "C"
    amount := some 1200
    status := DebtStatus.partially_paid
    tags := []
    dueDate := "2024-01-01"
    payDate := "2024-02-01"
    totalInstallments := some 3
    paidInstallments := 2
    installmentAmount := some 400
    remainingAmount := some 400 }

/-- A store holding a 3-installment debt with 2 installments paid, used by
the ceiling witness. -/
def c4Store : Store :=
  { persons := [{ id := "u1", name := "U", money := some 2000 }]
    debts := [("u1", c4Debt)]
    deposits := []
    expenses := [] }

/-- The fully open-ended debt of the explicit-amount witness. -/
def c5Debt : Debt :=
  { id := "d1"
    title := "T"
    credor := "C"
    amount := none
    status := DebtStatus.pending
    tags := []
    dueDate := "2024-01-01"
    payDate := "Não pago"
    totalInstallments := none
    paidInstallments := 0
    installmentAmount := none
    remainingAmount := none }

/-- A store holding a fully open-ended debt (no total amount, no
installment count), used by the explicit-amount witness. -/
def c5Store : Store :=
  { persons := [{ id := "u1", name := "U", money := some 2000 }]
    debts := [("u1", c5Debt)]
    deposits := []
    expenses := [] }

/-- The 3-installment, 1200-total fresh debt of the exact-completion
witness. -/
def c1Debt : Debt :=
  { id := "d1"
    title := "Aluguel"
    credor := "Imobiliária"
    amount := some 1200
    status := DebtStatus.pending
    tags := []
    dueDate := "2024-02-10"
    payDate := "Não pago"
    totalInstallments := some 3
    paidInstallments := 0
    installmentAmount := some 400
    remainingAmount := some 1200 }

/-- A store with a 2000-unit balance and the 1200/3 debt, used by the
exact-completion witness. -/
def c1Store : Store :=
  { persons := [{ id := "u1", name := "U", money := some 2000 }]
    debts := [("u1", c1Debt)]
    deposits := []
    expenses := [] }

/-- An open-ended debt with known total 100, used by the conservation
witness. -/
def c6Debt : Debt :=
  { id := "d1"
    title := "T"
    credor := "C"
    amount := some 100
    status := DebtStatus.pending
    tags := []
    dueDate := "2024-01-01"
    payDate := "Não pago"
    totalInstallments := none
    paidInstallments := 0
    installmentAmount := none
    remainingAmount := some 100 }

/-- A store with a 1000-unit balance and the total-100 debt, used by the
conservation witness. -/
def c6Store : Store :=
  { persons := [{ id := "u1", name := "U", money := some 1000 }]
    debts := [("u1", c6Debt)]
    deposits := []
    expenses := [] }

/-- Two explicit cent-value payments (40 then 60) settling the total-100
debt. -/
def c6Calls : List PaymentCall :=
  [{ amount := some 40, installments := 1, now := "t1" },
   { amount := some 60, installments := 1, now := "t2" }]

/-- The store after the two conservation-witness payments. -/
def c6Final : Store :=
  match runPayments "u1" "d1" c6Store c6Calls with
  | some p => p.1
  | none => c6Store

/-- A one-person 100-balance store with no debt yet, used by the
conservation counterexample. -/
def c6xStore : Store :=
  { persons := [{ id := "u1", name := "U", money := some 100 }]
    debts := []
    deposits := []
    expenses := [] }

/-- A debt-registration input with total amount 10 and no installment
plan, used by the conservation counterexample. -/
def c6xDto : DebtDTO :=
  { title := "A"
    credor := "B"
    amount := some 10
    status := none
    tags := []
    dueDate := some "2024-01-01"
    payDate := none
    totalInstallments := none }

/-- A fully specified debt-registration input (1200 over 3 installments),
used by the registration witness. -/
def c7Dto : DebtDTO :=
  { title := "Aluguel"
    credor := "Imobiliária"
    amount := some 1200
    status := none
    tags := ["moradia"]
    dueDate := some "2024-02-10"
    payDate := none
    totalInstallments := some 3 }

/-- A one-person 100-balance store, used by the deposit claims. -/
def c8Store : Store :=
  { persons := [{ id := "u1", name := "U", money := some 100 }]
    debts := []
    deposits := []
    expenses := [] }

/-- A valid 50-unit deposit input, used by the deposit claims. -/
def c8Dto : DepositDTO :=
  { name := "Salário"
    value := 50
    isLoan := none
    creditorName := none
    date := some "2024-01-05" }

/-- An expense input whose value 0 violates the positive-number rule, used
by the expense-validation witness. -/
def c9Dto : ExpenseDTO :=
  { description := "Café"
    value := 0
    tags := none
    date := none }

/-- A valid 50-unit deposit input for a missing user, used by the
missing-person witness. -/
def c10Dto : DepositDTO :=
  { name := "Salário"
    value := 50
    isLoan := none
    creditorName := none
    date := some "2024-01-05" }

/-- A one-person store used by the missing-person claim (the deposit
targets the absent id "ghost"). -/
def c10Store : Store :=
  { persons := [{ id := "u1", name := "U", money := some 100 }]
    debts := []
    deposits := []
    expenses := [] }

/-! ## Lemmas about rounding and cent values -/

theorem cent_round2 (q : ℚ) : Cent (round2 q) := ⟨round (100 * q), rfl⟩

theorem round2_eq_of_cent {q : ℚ} (h : Cent q) : round2 q = q := by
  obtain ⟨n, rfl⟩ := h
  unfold round2
  have h100 : (100 : ℚ) * ((n : ℚ) / 100) = (n : ℚ) := by
    field_simp
  rw [h100, round_intCast]

theorem cent_zero : Cent 0 := ⟨0, by norm_num⟩

theorem cent_add {a b : ℚ} (ha : Cent a) (hb : Cent b) : Cent (a + b) := by
  obtain ⟨m, rfl⟩ := ha
  obtain ⟨k, rfl⟩ := hb
  exact ⟨m + k, by push_cast; ring⟩

theorem cent_sub {a b : ℚ} (ha : Cent a) (hb : Cent b) : Cent (a - b) := by
  obtain ⟨m, rfl⟩ := ha
  obtain ⟨k, rfl⟩ := hb
  exact ⟨m - k, by push_cast; ring⟩

theorem cent_natMul {a : ℚ} (j : ℕ) (ha : Cent a) : Cent ((j : ℚ) * a) := by
  obtain ⟨m, rfl⟩ := ha
  exact ⟨(j : ℤ) * m, by push_cast; ring⟩

theorem round2_zero : round2 0 = 0 := by
  unfold round2
  norm_num

theorem round2_nonneg {q : ℚ} (h : 0 ≤ q) : 0 ≤ round2 q := by
  unfold round2
  have h1 : (0 : ℤ) ≤ round (100 * q) := by
    rw [round_eq]
    exact Int.le_floor.mpr (by push_cast; linarith)
  positivity

/-! ## Basic store lemmas -/

/-! ## Store lemmas -/

theorem find?_map_pres_id (l : List Person) (pid : String) (u : Person → Person)
    (hu : ∀ p, (u p).id = p.id) :
    (l.map u).find? (fun p => p.id = pid) = (l.find? (fun p => p.id = pid)).map u := by
  induction l with
  | nil => rfl
  | cons p l ih =>
    by_cases h : p.id = pid
    · rw [List.map_cons, List.find?_cons_of_pos _ (by simp [hu, h]),
        List.find?_cons_of_pos _ (by simp [h])]
      rfl
    · rw [List.map_cons, List.find?_cons_of_neg _ (by simp [hu, h]),
        List.find?_cons_of_neg _ (by simp [h]), ih]

theorem moneyOf_congr_persons {s1 s2 : Store} (h : s1.persons = s2.persons)
    (pid : String) : moneyOf s1 pid = moneyOf s2 pid := by
  unfold moneyOf findPersonById
  rw [h]

theorem debtLookup_congr_debts {s1 s2 : Store} (h : s1.debts = s2.debts)
    (pid did : String) : debtLookup s1 pid did = debtLookup s2 pid did := by
  unfold debtLookup listDebtsByPersonId
  rw [h]

theorem conditionalDebit_ok_elim {s : Store} {pid : String} {amt : ℚ} {s1 : Store}
    (h : conditionalDebit s pid amt = .ok s1) :
    s1.debts = s.debts ∧ s1.deposits = s.deposits ∧ s1.expenses = s.expenses ∧
      moneyOf s1 pid = moneyOf s pid - amt ∧ amt ≤ moneyOf s pid ∧
      (findPersonById s1 pid).isSome := by
  unfold conditionalDebit at h
  cases hp : findPersonById s pid with
  | none => rw [hp] at h; exact absurd h (by simp)
  | some p =>
    rw [hp] at h
    dsimp only at h
    split_ifs at h with hle
    · have hpid : p.id = pid := by
        have := List.find?_some hp
        exact of_decide_eq_true this
      cases h
      have hm : moneyOf s pid = p.money.getD 0 := by
        unfold moneyOf
        rw [hp]
        rfl
      refine ⟨rfl, rfl, rfl, ?_, ?_, ?_⟩
      · unfold moneyOf findPersonById
        rw [find?_map_pres_id _ _ _ (fun q => by by_cases hq : q.id = pid <;> simp [hq])]
        unfold findPersonById at hp
        rw [hp]
        simp [hpid]
      · rw [hm]; exact hle
      · unfold findPersonById
        rw [find?_map_pres_id _ _ _ (fun q => by by_cases hq : q.id = pid <;> simp [hq])]
        unfold findPersonById at hp
        rw [hp]
        rfl

theorem conditionalDebit_insufficient {s : Store} {pid : String} {amt : ℚ}
    (h : ∀ p, findPersonById s pid = some p → p.money.getD 0 < amt) :
    conditionalDebit s pid amt = .error "Saldo insuficiente ou usuário não encontrado" := by
  unfold conditionalDebit
  cases hp : findPersonById s pid with
  | none => rfl
  | some p =>
    dsimp only
    rw [if_neg (not_le.mpr (h p hp))]

theorem find?_filter_map_update (l : List (String × Debt)) (pid did : String)
    (upd : Debt → Debt) (hid : ∀ d, (upd d).id = d.id) :
    ((((l.map (fun od => if od.1 = pid ∧ od.2.id = did then (od.1, upd od.2) else od)).filter
        (fun od => od.1 = pid)).map (fun od => od.2)).find? (fun d => d.id = did))
      = (((l.filter (fun od => od.1 = pid)).map (fun od => od.2)).find?
          (fun d => d.id = did)).map upd := by
  induction l with
  | nil => rfl
  | cons od l ih =>
    obtain ⟨o, d⟩ := od
    by_cases ho : o = pid
    · by_cases hd : d.id = did
      · rw [List.map_cons, if_pos ⟨ho, hd⟩]
        rw [List.filter_cons_of_pos (by simp [ho]), List.filter_cons_of_pos (by simp [ho])]
        rw [List.map_cons, List.map_cons]
        rw [List.find?_cons_of_pos _ (by simp [hid, hd]),
          List.find?_cons_of_pos _ (by simp [hd])]
        rfl
      · rw [List.map_cons, if_neg (by simp [hd])]
        rw [List.filter_cons_of_pos (by simp [ho]), List.filter_cons_of_pos (by simp [ho])]
        rw [List.map_cons, List.map_cons]
        rw [List.find?_cons_of_neg _ (by simp [hd]), List.find?_cons_of_neg _ (by simp [hd]), ih]
    · rw [List.map_cons, if_neg (by simp [ho])]
      rw [List.filter_cons_of_neg (by simp [ho]), List.filter_cons_of_neg (by simp [ho]), ih]

theorem debtLookup_updateDebtPayment (s : Store) (pid did : String) (st : DebtStatus)
    (pi : ℤ) (ra : Option ℚ) (pd : String) :
    debtLookup (updateDebtPayment s pid did st pi ra pd) pid did
      = (debtLookup s pid did).map (fun d =>
          { d with status := st, paidInstallments := pi, remainingAmount := ra, payDate := pd }) := by
  have h := find?_filter_map_update s.debts pid did
    (fun d => { d with status := st, paidInstallments := pi, remainingAmount := ra, payDate := pd })
    (fun d => rfl)
  unfold debtLookup listDebtsByPersonId updateDebtPayment
  dsimp only
  exact h

theorem map_update_id_of_not_mem (pid : String) (f : Person → Person) :
    ∀ l : List Person, (∀ p ∈ l, ¬(p.id = pid)) →
      l.map (fun p => if p.id = pid then f p else p) = l
  | [], _ => rfl
  | p :: l, h => by
      rw [List.map_cons, if_neg (h p (by simp)),
        map_update_id_of_not_mem pid f l (fun q hq => h q (by simp [hq]))]

theorem addMoney_of_missing {s : Store} {pid : String} (amt : ℚ)
    (h : findPersonById s pid = none) : addMoney s pid amt = s := by
  have hmem : ∀ p ∈ s.persons, ¬(p.id = pid) := by
    intro p hp heq
    have := List.find?_eq_none.mp h p hp
    simp [heq] at this
  unfold addMoney
  rw [map_update_id_of_not_mem pid _ s.persons hmem]

/-! ## Installment walk lemmas -/

/-! ## Installment walk and settlement-plan lemmas -/

theorem installmentWalk_flat (rem ia : ℚ) (paid total : ℤ) :
    ∀ j : ℕ, (∀ i : ℕ, i < j → paid + ((i : ℤ) + 1) < total) →
      installmentWalk rem ia paid total j = (j : ℚ) * ia
  | 0, _ => by simp [installmentWalk]
  | j + 1, h => by
      rw [installmentWalk,
        installmentWalk_flat rem ia paid total j (fun i hi => h i (Nat.lt_succ_of_lt hi)),
        if_neg (not_le.mpr (h j (Nat.lt_succ_self j)))]
      push_cast
      ring

theorem installmentWalk_complete (rem ia : ℚ) (paid total : ℤ) (n : ℕ)
    (hlast : paid + ((n : ℤ) + 1) = total) (hrem : Cent rem) (hia : Cent ia) :
    installmentWalk rem ia paid total (n + 1) = rem := by
  have hflat : installmentWalk rem ia paid total n = (n : ℚ) * ia :=
    installmentWalk_flat rem ia paid total n (fun i hi => by omega)
  rw [installmentWalk, hflat, if_pos (le_of_eq hlast.symm),
    round2_eq_of_cent (cent_sub hrem (cent_natMul n hia))]
  ring

/-! ## Settlement-plan dissection lemmas -/

theorem expectedAmountOf_cent {d : Debt} {i : ℤ} {e : ℚ}
    (h : expectedAmountOf d i = some e) : Cent e := by
  unfold expectedAmountOf at h
  split_ifs at h with hf
  rcases Option.eq_none_or_eq_some (debtRemaining d) with hr | ⟨rem, hr⟩
  · rw [hr] at h; cases h
  · rw [hr] at h
    dsimp only at h
    injection h with he
    exact he ▸ cent_round2 _

theorem payDebtPlan_ok_elim {d : Debt} {amount : Option ℚ} {inst : ℤ} {c : ℚ}
    (h : payDebtPlan d amount inst = .ok c) :
    c = amount.getD ((expectedAmountOf d inst).getD 0) ∧
      (amount = none → ∃ e, expectedAmountOf d inst = some e) ∧
      (∀ r, debtRemaining d = some r → c ≤ r) := by
  unfold payDebtPlan at h
  split_ifs at h with h1 h2 h3 h4
  have hnone : amount = none → ∃ e, expectedAmountOf d inst = some e := by
    intro ha
    rcases Option.eq_none_or_eq_some (expectedAmountOf d inst) with he | ⟨e, he⟩
    · exact absurd ⟨Or.inr he, ha⟩ h4
    · exact ⟨e, he⟩
  rcases Option.eq_none_or_eq_some (debtRemaining d) with hr | ⟨r0, hr⟩
  · rw [hr] at h
    dsimp only at h
    injection h with hc
    exact ⟨hc.symm, hnone, fun r hr' => by rw [hr'] at hr; cases hr⟩
  · rw [hr] at h
    dsimp only at h
    split_ifs at h with h5
    injection h with hc
    refine ⟨hc.symm, hnone, fun r hr' => ?_⟩
    rw [hr] at hr'
    injection hr' with hr0
    rw [← hr0, ← hc]
    exact not_lt.mp h5

theorem payDebt_ok_elim {s : Store} {uid did : String} {amount : Option ℚ} {inst : ℤ}
    {now : String} {s1 : Store} {res : DebtPaymentResult}
    (h : payDebt s uid did amount inst now = .ok (s1, res)) :
    ∃ d c sd, debtLookup s uid did = some d ∧
      payDebtPlan d amount inst = .ok c ∧
      conditionalDebit s uid c = .ok sd ∧
      s1 = updateDebtPayment sd uid did
        (if isFullyPaidOf d c (d.paidInstallments + inst) then DebtStatus.paid
         else DebtStatus.partially_paid)
        (d.paidInstallments + inst) (newRemainingOf d c) now ∧
      res = { success := true, debtId := did, installmentsPaidNow := inst,
              paidInstallments := d.paidInstallments + inst,
              totalInstallments := if debtHasFixed d then d.totalInstallments else none,
              remainingAmount := newRemainingOf d c,
              status := if isFullyPaidOf d c (d.paidInstallments + inst) then DebtStatus.paid
                        else DebtStatus.partially_paid } := by
  unfold payDebt at h
  cases hv : validatePayDebtInput uid did amount inst with
  | error e => rw [hv] at h; cases h
  | ok uv =>
    rw [hv] at h
    dsimp only at h
    cases hd : debtLookup s uid did with
    | none => rw [hd] at h; cases h
    | some d =>
      rw [hd] at h
      dsimp only at h
      cases hp : payDebtPlan d amount inst with
      | error e => rw [hp] at h; cases h
      | ok c =>
        rw [hp] at h
        dsimp only at h
        cases hu : findPersonById s uid with
        | none => rw [hu] at h; cases h
        | some uP =>
          rw [hu] at h
          dsimp only at h
          by_cases hm : uP.money.getD 0 < c
          · rw [if_pos hm] at h; cases h
          · rw [if_neg hm] at h
            cases hc : conditionalDebit s uid c with
            | error e => rw [hc] at h; cases h
            | ok sd =>
              rw [hc] at h
              dsimp only at h
              injection h with hpair
              injection hpair with hs1 hres
              subst hs1
              subst hres
              exact ⟨d, c, sd, rfl, hp, hc, rfl, rfl⟩

/-! ## Payment-step and payment-sequence lemmas -/

theorem moneyOf_updateDebtPayment (s : Store) (pid did : String) (st : DebtStatus)
    (pi : ℤ) (ra : Option ℚ) (pd : String) (q : String) :
    moneyOf (updateDebtPayment s pid did st pi ra pd) q = moneyOf s q := rfl

theorem payDebt_step_cents {uid did : String} {s : Store} {r : ℚ} {pc : PaymentCall}
    {s1 : Store} {res : DebtPaymentResult}
    (hI : DebtCentInv uid did s r) (hrc : Cent r)
    (hca : ∀ a, pc.amount = some a → Cent a)
    (h : payDebt s uid did pc.amount pc.installments pc.now = .ok (s1, res)) :
    ∃ ch, Cent ch ∧ ch ≤ r ∧ DebtCentInv uid did s1 (r - ch) ∧
      moneyOf s1 uid = moneyOf s uid - ch := by
  obtain ⟨d, hd, hrem, hia⟩ := hI
  obtain ⟨d', c, sd, hd', hp, hc, hs1, _⟩ := payDebt_ok_elim h
  rw [hd] at hd'
  injection hd' with hdd
  subst hdd
  have hdr : debtRemaining d = some r := by
    unfold debtRemaining
    rw [hrem]
  obtain ⟨hcv, hexp, hbound⟩ := payDebtPlan_ok_elim hp
  have hcent : Cent c := by
    cases hamt : pc.amount with
    | some a =>
        rw [hamt] at hcv
        exact hcv ▸ hca a hamt
    | none =>
        obtain ⟨e, he⟩ := hexp hamt
        rw [hamt, he] at hcv
        exact hcv ▸ expectedAmountOf_cent he
  have hle : c ≤ r := hbound r hdr
  obtain ⟨hdebts, _, _, hmoney, _, _⟩ := conditionalDebit_ok_elim hc
  have hnr : newRemainingOf d c = some (r - c) := by
    unfold newRemainingOf
    rw [hdr]
    dsimp only [Option.map]
    rw [max_eq_right (sub_nonneg.mpr hle), round2_eq_of_cent (cent_sub hrc hcent)]
  refine ⟨c, hcent, hle, ?_, ?_⟩
  · subst hs1
    refine ⟨{ d with
        status := if isFullyPaidOf d c (d.paidInstallments + pc.installments) then
          DebtStatus.paid else DebtStatus.partially_paid
        paidInstallments := d.paidInstallments + pc.installments
        remainingAmount := newRemainingOf d c
        payDate := pc.now }, ?_, ?_, ?_⟩
    · rw [debtLookup_updateDebtPayment, debtLookup_congr_debts hdebts, hd]
      rfl
    · exact hnr
    · exact fun v hv => hia v hv
  · subst hs1
    rw [moneyOf_updateDebtPayment, hmoney]

theorem runPayments_cents (uid did : String) :
    ∀ (calls : List PaymentCall) (s : Store) (r : ℚ),
      DebtCentInv uid did s r → Cent r → 0 ≤ r →
      (∀ pc ∈ calls, ∀ a, pc.amount = some a → Cent a) →
      ∀ sf charges, runPayments uid did s calls = some (sf, charges) →
        ∃ rf, DebtCentInv uid did sf rf ∧ Cent rf ∧ 0 ≤ rf ∧
          charges.sum = r - rf ∧ moneyOf s uid - moneyOf sf uid = charges.sum
  | [], s, r, hI, hc, hr0, _, sf, charges, hrun => by
      unfold runPayments at hrun
      injection hrun with hpair
      injection hpair with h1 h2
      subst h1
      subst h2
      exact ⟨r, hI, hc, hr0, by simp, by simp⟩
  | pc :: cs, s, r, hI, hc, hr0, hcalls, sf, charges, hrun => by
      unfold runPayments at hrun
      cases hp : payDebt s uid did pc.amount pc.installments pc.now with
      | error e => rw [hp] at hrun; cases hrun
      | ok pr =>
        obtain ⟨s1, res⟩ := pr
        rw [hp] at hrun
        dsimp only at hrun
        cases hrec : runPayments uid did s1 cs with
        | none => rw [hrec] at hrun; cases hrun
        | some pr2 =>
          obtain ⟨sf2, ch2⟩ := pr2
          rw [hrec] at hrun
          dsimp only [Option.map] at hrun
          injection hrun with hpair
          injection hpair with h1 h2
          subst h1
          subst h2
          obtain ⟨ch, hcent, hle, hI1, hmon⟩ :=
            payDebt_step_cents hI hc (fun a ha => hcalls pc (List.mem_cons_self pc cs) a ha) hp
          obtain ⟨rf, hIf, hcf, hrf, hsum, hmsum⟩ :=
            runPayments_cents uid did cs s1 (r - ch) hI1 (cent_sub hc hcent)
              (sub_nonneg.mpr hle)
              (fun q hq a ha => hcalls q (List.mem_cons_of_mem pc hq) a ha) sf2 ch2 hrec
          refine ⟨rf, hIf, hcf, hrf, ?_, ?_⟩
          · rw [List.sum_cons, hmon, hsum]
            ring
          · rw [List.sum_cons, hmon]
            rw [hmon] at hmsum
            linarith [hmsum]

/-! ## Forward evaluation helpers -/

/-! ## Forward evaluation helpers -/

theorem payDebt_plan_error {s : Store} {uid did : String} {amount : Option ℚ}
    {inst : ℤ} (now : String) {d : Debt} {e : String}
    (hv : validatePayDebtInput uid did amount inst = .ok ())
    (hd : debtLookup s uid did = some d)
    (hp : payDebtPlan d amount inst = .error e) :
    payDebt s uid did amount inst now = .error e := by
  unfold payDebt
  rw [hv]
  dsimp only
  rw [hd]
  dsimp only
  rw [hp]

theorem payDebtStore_of_error {s : Store} {uid did : String} {amount : Option ℚ}
    {inst : ℤ} {now : String} {e : String}
    (h : payDebt s uid did amount inst now = .error e) :
    payDebtStore s uid did amount inst now = s := by
  unfold payDebtStore
  rw [h]

/-! ## Claim theorems and witnesses -/

/-- C2: a `payDebt` call in which the payer does not exist or the payer's
balance is strictly below the amount to charge fails with the
insufficient-funds error, and the store — the person's balance and every
debt field — is unchanged: the conditional debit and the debt update form
one all-or-nothing transaction and nothing before them writes. -/
theorem payDebt_insufficient_funds_atomic (s : Store) (uid did : String)
    (amount : Option ℚ) (inst : ℤ) (now : String) (d : Debt) (c : ℚ)
    (hv : validatePayDebtInput uid did amount inst = .ok ())
    (hd : debtLookup s uid did = some d)
    (hp : payDebtPlan d amount inst = .ok c)
    (hin : ∀ u, findPersonById s uid = some u → u.money.getD 0 < c) :
    payDebt s uid did amount inst now = .error "Saldo insuficiente ou usuário não encontrado" ∧
      payDebtStore s uid did amount inst now = s := by
  have herr : payDebt s uid did amount inst now
      = .error "Saldo insuficiente ou usuário não encontrado" := by
    unfold payDebt
    rw [hv]
    dsimp only
    rw [hd]
    dsimp only
    rw [hp]
    dsimp only
    rcases Option.eq_none_or_eq_some (findPersonById s uid) with hu | ⟨u, hu⟩
    · rw [hu]
    · rw [hu]
      dsimp only
      rw [if_pos (hin u hu)]
  exact ⟨herr, payDebtStore_of_error herr⟩

/-- C2 witness: the payer has balance 5 and the explicit amount to charge
is 10, so the call fails and the store is untouched. -/
theorem payDebt_insufficient_funds_atomic_witness :
    payDebt c2Store "u1" "d1" (some 10) 1 "t"
        = .error "Saldo insuficiente ou usuário não encontrado" ∧
      payDebtStore c2Store "u1" "d1" (some 10) 1 "t" = c2Store :=
  payDebt_insufficient_funds_atomic c2Store "u1" "d1" (some 10) 1 "t" c2Debt 10
    (by decide) (by decide) (by decide)
    (by
      intro u hu
      have h0 : findPersonById c2Store "u1" = some { id := "u1", name := "U", money := some 5 } := by
        decide
      rw [h0] at hu
      injection hu with hu'
      rw [← hu']
      decide)

/-- C3: paying a debt whose status is already `paid` fails with the
"already paid" error for every otherwise valid input, and the payer's
balance and all debt fields are unchanged; `paid` is terminal. -/
theorem payDebt_already_paid_terminal (s : Store) (uid did : String)
    (amount : Option ℚ) (inst : ℤ) (now : String) (d : Debt)
    (hv : validatePayDebtInput uid did amount inst = .ok ())
    (hd : debtLookup s uid did = some d)
    (hst : d.status = DebtStatus.paid) :
    payDebt s uid did amount inst now = .error "Dívida já está paga" ∧
      payDebtStore s uid did amount inst now = s := by
  have hp : payDebtPlan d amount inst = .error "Dívida já está paga" := by
    unfold payDebtPlan
    rw [if_pos hst]
  have herr := payDebt_plan_error now hv hd hp
  exact ⟨herr, payDebtStore_of_error herr⟩

/-- C3 witness: a paid debt rejects a further payment (2 installments,
explicit amount 50) and the store is untouched. -/
theorem payDebt_already_paid_terminal_witness :
    payDebt c3Store "u1" "d1" (some 50) 2 "t" = .error "Dívida já está paga" ∧
      payDebtStore c3Store "u1" "d1" (some 50) 2 "t" = c3Store :=
  payDebt_already_paid_terminal c3Store "u1" "d1" (some 50) 2 "t" c3Debt
    (by decide) (by decide) (by decide)

/-- C4: under a fixed installment plan, requesting more installments than
remain fails with the error naming the remaining count
(`max 0 (totalInstallments − paidInstallments)`), and no mutation of the
balance or the debt occurs. -/
theorem payDebt_installment_ceiling (s : Store) (uid did : String)
    (amount : Option ℚ) (inst : ℤ) (now : String) (d : Debt) (n : ℤ)
    (hv : validatePayDebtInput uid did amount inst = .ok ())
    (hd : debtLookup s uid did = some d)
    (hst : d.status ≠ DebtStatus.paid)
    (hti : d.totalInstallments = some n) (hn : 1 ≤ n)
    (hceil : max 0 (n - d.paidInstallments) < inst) :
    payDebt s uid did amount inst now
        = .error ("Não é possível pagar " ++ toString inst ++
            " parcelas. Restam " ++ toString (max 0 (n - d.paidInstallments))) ∧
      payDebtStore s uid did amount inst now = s := by
  have hf : debtHasFixed d = true := by
    unfold debtHasFixed
    rw [hti]
    exact decide_eq_true hn
  have hgetd : (remainingInstallmentsOf d).getD 0 = max 0 (n - d.paidInstallments) := by
    unfold remainingInstallmentsOf
    rw [if_pos hf, hti]
    rfl
  have hinst1 : ¬(inst < 1) := by
    have h0 : (0 : ℤ) ≤ max 0 (n - d.paidInstallments) := le_max_left 0 _
    omega
  have hp : payDebtPlan d amount inst
      = .error ("Não é possível pagar " ++ toString inst ++
          " parcelas. Restam " ++ toString (max 0 (n - d.paidInstallments))) := by
    unfold payDebtPlan
    rw [if_neg hst, if_neg hinst1, if_pos ⟨hf, by rw [hgetd]; exact hceil⟩, hgetd]
  have herr := payDebt_plan_error now hv hd hp
  exact ⟨herr, payDebtStore_of_error herr⟩

/-- C4 witness: with 3 total installments and 2 already paid, requesting 2
fails with the message naming "1" as the remaining count, leaving the
store untouched. -/
theorem payDebt_installment_ceiling_witness :
    payDebt c4Store "u1" "d1" none 2 "t"
        = .error "Não é possível pagar 2 parcelas. Restam 1" ∧
      payDebtStore c4Store "u1" "d1" none 2 "t" = c4Store := by
  exact payDebt_installment_ceiling c4Store "u1" "d1" none 2 "t"
    c4Debt 3 (by decide) (by decide) (by decide) (by decide)
    (by decide) (by decide)

/-- C5: a debt whose plan is not fully known (no installment count, or no
total amount and hence no tracked remaining amount) rejects a call without
an explicit amount, before any store mutation; and when both dimensions
are unknown an explicit amount is exactly the amount charged, the
installment count acting as a pure bookkeeping counter with no ceiling. -/
theorem payDebt_open_ended_requires_amount (s : Store) (uid did : String)
    (inst : ℤ) (now : String) (d : Debt)
    (hv : validatePayDebtInput uid did none inst = .ok ())
    (hd : debtLookup s uid did = some d)
    (hst : d.status ≠ DebtStatus.paid)
    (hinst : 1 ≤ inst)
    (hceil : ∀ n, d.totalInstallments = some n → inst ≤ max 0 (n - d.paidInstallments))
    (hopen : d.totalInstallments = none ∨ (d.amount = none ∧ d.remainingAmount = none)) :
    payDebt s uid did none inst now
        = .error "Informe o valor a pagar para cobranças com valor total indefinido" ∧
      payDebtStore s uid did none inst now = s ∧
      (∀ a : ℚ, d.totalInstallments = none → d.amount = none → d.remainingAmount = none →
        payDebtPlan d (some a) inst = .ok a) := by
  have hexp : expectedAmountOf d inst = none := by
    unfold expectedAmountOf
    rcases hopen with hti | ⟨hA, hR⟩
    · rw [if_neg (by unfold debtHasFixed; rw [hti]; simp)]
    · have hdr : debtRemaining d = none := by
        unfold debtRemaining
        rw [hR]
        dsimp only
        rw [if_neg (by unfold debtHasKnownAmount; rw [hA]; simp)]
      split_ifs with hf
      · rw [hdr]
      · rfl
  have hnoceil : ¬(debtHasFixed d = true ∧ (remainingInstallmentsOf d).getD 0 < inst) := by
    rintro ⟨hf, hlt⟩
    rcases Option.eq_none_or_eq_some d.totalInstallments with hti | ⟨n, hti⟩
    · unfold debtHasFixed at hf
      rw [hti] at hf
      cases hf
    · have h1 : (remainingInstallmentsOf d).getD 0 = max 0 (n - d.paidInstallments) := by
        unfold remainingInstallmentsOf
        rw [if_pos hf, hti]
        rfl
      rw [h1] at hlt
      exact absurd hlt (not_lt.mpr (hceil n hti))
  have hp : payDebtPlan d none inst
      = .error "Informe o valor a pagar para cobranças com valor total indefinido" := by
    unfold payDebtPlan
    rw [if_neg hst, if_neg (not_lt.mpr hinst), if_neg hnoceil,
      if_pos ⟨Or.inr hexp, rfl⟩]
  have herr := payDebt_plan_error now hv hd hp
  refine ⟨herr, payDebtStore_of_error herr, ?_⟩
  intro a hti hA hR
  have hdr : debtRemaining d = none := by
    unfold debtRemaining
    rw [hR]
    dsimp only
    rw [if_neg (by unfold debtHasKnownAmount; rw [hA]; simp)]
  have hfneg : ¬(debtHasFixed d = true) := by
    unfold debtHasFixed
    rw [hti]
    simp
  unfold payDebtPlan
  rw [if_neg hst, if_neg (not_lt.mpr hinst), if_neg (by rintro ⟨hf, _⟩; exact hfneg hf),
    if_neg (by rintro ⟨_, hx⟩; cases hx), hdr]
  rfl

/-- C5 witness: a fully open-ended debt rejects a 1-installment call
without an amount, leaves the store untouched, and charges exactly an
explicit amount of 75. -/
theorem payDebt_open_ended_requires_amount_witness :
    (payDebt c5Store "u1" "d1" none 1 "t"
        = .error "Informe o valor a pagar para cobranças com valor total indefinido" ∧
      payDebtStore c5Store "u1" "d1" none 1 "t" = c5Store ∧
      (∀ a : ℚ, c5Debt.totalInstallments = none →
        c5Debt.amount = none →
        c5Debt.remainingAmount = none →
        payDebtPlan c5Debt (some a) 1 = .ok a)) ∧
      payDebtPlan c5Debt (some 75) 1 = .ok 75 := by
  have h := payDebt_open_ended_requires_amount c5Store "u1" "d1" 1 "t"
    c5Debt (by decide) (by decide) (by decide) (by decide)
    (by intro n hn; rw [show c5Debt.totalInstallments = none from by decide] at hn; cases hn)
    (Or.inl (by decide))
  exact ⟨h, h.2.2 75 (by decide) (by decide) (by decide)⟩

/-- C1: on a debt with known total amount and a fixed installment plan,
paying all remaining installments in one call with no explicit amount
charges exactly the debt's remaining amount (the payer's balance decreases
by exactly `r`) and ends with `remainingAmount = some 0` and status
`paid`: the per-installment walk adds the flat installment amount for
every installment except the completing one, whose contribution is the
remaining amount minus the amount accumulated so far, rounded to two
decimals, so rounding drift from the installment-amount division leaves no
residual or negative cent. -/
theorem payDebt_completes_exactly
    (s : Store) (uid did now : String) (d : Debt) (u : Person) (a r : ℚ) (n : ℤ)
    (hv : validatePayDebtInput uid did none (n - d.paidInstallments) = .ok ())
    (hd : debtLookup s uid did = some d)
    (hst : d.status ≠ DebtStatus.paid)
    (ha : d.amount = some a) (ha0 : 0 < a)
    (hti : d.totalInstallments = some n)
    (hk0 : 0 ≤ d.paidInstallments) (hkn : d.paidInstallments < n)
    (hia : d.installmentAmount = some (round2 (a / (n : ℚ))))
    (hrem : d.remainingAmount = some r) (hcr : Cent r)
    (hu : findPersonById s uid = some u) (hm : r ≤ u.money.getD 0) :
    (payDebtResultOf s uid did none (n - d.paidInstallments) now).map
        (fun res => (res.remainingAmount, res.status, res.paidInstallments))
      = some (some 0, DebtStatus.paid, n) ∧
    moneyOf (payDebtStore s uid did none (n - d.paidInstallments) now) uid
      = moneyOf s uid - r := by
  have hn1 : 1 ≤ n := by omega
  have hf : debtHasFixed d = true := by
    unfold debtHasFixed
    rw [hti]
    exact decide_eq_true hn1
  have hknown : debtHasKnownAmount d = true := by
    unfold debtHasKnownAmount
    rw [ha]
    exact decide_eq_true ha0
  have hdr : debtRemaining d = some r := by
    unfold debtRemaining
    rw [hrem]
  have hiav : debtInstallmentAmount d = round2 (a / (n : ℚ)) := by
    unfold debtInstallmentAmount
    rw [hia]
    dsimp only
    split_ifs with h0 h1
    · rw [ha, hti]
      rfl
    · exact absurd (by rw [hf, hknown]; rfl) h1
    · rfl
  obtain ⟨m0, hm0⟩ : ∃ m0 : ℕ, (n - d.paidInstallments).toNat = m0 + 1 :=
    ⟨(n - d.paidInstallments).toNat - 1, by omega⟩
  have hlast : d.paidInstallments + ((m0 : ℤ) + 1) = d.totalInstallments.getD 0 := by
    rw [hti, Option.getD_some]
    omega
  have hexp : expectedAmountOf d (n - d.paidInstallments) = some r := by
    unfold expectedAmountOf
    rw [if_pos hf, hdr]
    dsimp only
    rw [hm0, hiav,
      installmentWalk_complete r (round2 (a / (n : ℚ))) d.paidInstallments
        (d.totalInstallments.getD 0) m0 hlast hcr (cent_round2 _),
      round2_eq_of_cent hcr]
  have hgetd : (remainingInstallmentsOf d).getD 0 = max 0 (n - d.paidInstallments) := by
    unfold remainingInstallmentsOf
    rw [if_pos hf, hti]
    rfl
  have hplan : payDebtPlan d none (n - d.paidInstallments) = .ok r := by
    unfold payDebtPlan
    rw [if_neg hst, if_neg (by omega : ¬(n - d.paidInstallments < 1)),
      if_neg (by
        rintro ⟨_, hlt⟩
        rw [hgetd] at hlt
        have h2 : n - d.paidInstallments ≤ max 0 (n - d.paidInstallments) :=
          le_max_right _ _
        omega),
      if_neg (by
        rintro ⟨hor, _⟩
        rcases hor with hff | hee
        · rw [hf] at hff; cases hff
        · rw [hexp] at hee; cases hee),
      hdr]
    dsimp only
    rw [hexp, Option.getD_some, Option.getD_none]
    rw [if_neg (lt_irrefl r)]
  have hnr0 : newRemainingOf d r = some 0 := by
    unfold newRemainingOf
    rw [hdr]
    dsimp only [Option.map]
    rw [sub_self, max_self, round2_zero]
  have hfp : isFullyPaidOf d r (d.paidInstallments + (n - d.paidInstallments)) = true := by
    unfold isFullyPaidOf
    rw [hnr0]
    simp
  cases hc : conditionalDebit s uid r with
  | error e =>
      exfalso
      unfold conditionalDebit at hc
      rw [hu] at hc
      dsimp only at hc
      rw [if_pos hm] at hc
      cases hc
  | ok sd =>
      have hpay : payDebt s uid did none (n - d.paidInstallments) now
          = .ok (updateDebtPayment sd uid did DebtStatus.paid
                  (d.paidInstallments + (n - d.paidInstallments))
                  (newRemainingOf d r) now,
              { success := true, debtId := did,
                installmentsPaidNow := n - d.paidInstallments,
                paidInstallments := d.paidInstallments + (n - d.paidInstallments),
                totalInstallments := d.totalInstallments,
                remainingAmount := newRemainingOf d r,
                status := DebtStatus.paid }) := by
        unfold payDebt
        rw [hv]
        dsimp only
        rw [hd]
        dsimp only
        rw [hplan]
        dsimp only
        rw [hu]
        dsimp only
        rw [if_neg (not_lt.mpr hm), hc]
        rw [if_pos hfp, if_pos hf]
      constructor
      · unfold payDebtResultOf
        rw [hpay]
        dsimp only
        rw [hnr0, hti, show d.paidInstallments + (n - d.paidInstallments) = n from by ring]
        rfl
      · unfold payDebtStore
        rw [hpay]
        dsimp only
        rw [moneyOf_updateDebtPayment]
        exact (conditionalDebit_ok_elim hc).2.2.2.1

/-! ## Deposit and expense lemmas -/

theorem moneyOf_addDeposit (s : Store) (pid : String) (rec : DepositRec) (q : String) :
    moneyOf (addDeposit s pid rec) q = moneyOf s q := by
  unfold addDeposit
  split_ifs <;> rfl

theorem moneyOf_addMoney {s : Store} {pid : String} (amt : ℚ) {p : Person}
    (hp : findPersonById s pid = some p) :
    moneyOf (addMoney s pid amt) pid = moneyOf s pid + amt := by
  have hp0 : List.find? (fun q => q.id = pid) s.persons = some p := hp
  have hfind := List.find?_some hp0
  have hpid : p.id = pid := of_decide_eq_true hfind
  unfold moneyOf addMoney findPersonById
  rw [find?_map_pres_id _ _ _ (fun q => by by_cases hq : q.id = pid <;> simp [hq])]
  unfold findPersonById at hp
  rw [hp]
  simp [hpid]

theorem findPersonById_addDeposit (s : Store) (pid : String) (rec : DepositRec)
    (q : String) : findPersonById (addDeposit s pid rec) q = findPersonById s q := by
  unfold addDeposit
  split_ifs <;> rfl

/-- C1 witness: total 1200, 3 installments, none paid; paying 3
installments in one call ends at remaining 0, status paid, and charges
exactly 1200. -/
theorem payDebt_completes_exactly_witness :
    (payDebtResultOf c1Store "u1" "d1" none (3 - c1Debt.paidInstallments) "t").map
        (fun res => (res.remainingAmount, res.status, res.paidInstallments))
      = some (some 0, DebtStatus.paid, 3) ∧
    moneyOf (payDebtStore c1Store "u1" "d1" none (3 - c1Debt.paidInstallments) "t") "u1"
      = moneyOf c1Store "u1" - 1200 :=
  payDebt_completes_exactly c1Store "u1" "d1" "t" c1Debt
    { id := "u1", name := "U", money := some 2000 } 1200 1200 3
    (by decide) (by decide) (by decide) (by decide) (by decide) (by decide)
    (by decide) (by decide) (by decide) (by decide) ⟨120000, by norm_num⟩
    (by decide) (by decide)

/-- C6 counterexample to the claim as stated: a debt registered with
total amount 10 receives one successful explicit payment of 3.333; the sum
of amounts charged is 3.333 but `totalAmount − finalRemainingAmount` is
`10 − 6.67 = 3.33`, because the new remaining amount is rounded to two
decimals. -/
theorem payDebt_conservation_counterexample :
    (match registerDebt c6xStore "u1" c6xDto "d1" "t0" with
      | .ok s1 => (runPayments "u1" "d1" s1
          [{ amount := some (3333/1000), installments := 1, now := "t" }]).map
            (fun p => (p.2.sum, remOf p.1 "u1" "d1"))
      | .error _ => none) = some (3333/1000, 667/100) ∧
    (3333/1000 : ℚ) ≠ 10 - 667/100 :=
  ⟨by decide, by decide⟩

/-- C6 (amended): over any sequence of successful `payDebt` calls on a
debt whose total amount equals its remaining amount, *provided* the
initial remaining amount and every explicitly supplied amount are exact
two-decimal (cent) values, the sum of the amounts charged equals
`totalAmount − finalRemainingAmount`; and — unconditionally in the code —
the remaining amount after each call is never negative, since each call
rejects a charge exceeding the remaining amount and floors the new
remaining amount at 0.  (As stated, with arbitrary non-cent amounts, the
claim fails: see the counterexample.) -/
theorem payDebt_conservation (uid did : String) (calls : List PaymentCall)
    (s : Store) (d : Debt) (r0 : ℚ)
    (hd : debtLookup s uid did = some d)
    (_htotal : d.amount = some r0)
    (hrem : d.remainingAmount = some r0)
    (hc : Cent r0) (hr0 : 0 ≤ r0)
    (hia : ∀ v, d.installmentAmount = some v → Cent v)
    (hcalls : ∀ pc ∈ calls, ∀ a, pc.amount = some a → Cent a)
    (sf : Store) (charges : List ℚ)
    (hrun : runPayments uid did s calls = some (sf, charges)) :
    charges.sum = r0 - remOf sf uid did ∧
    0 ≤ remOf sf uid did ∧
    (∀ pre suf, calls = pre ++ suf →
      ∀ smid chmid, runPayments uid did s pre = some (smid, chmid) →
        0 ≤ remOf smid uid did) := by
  have hI : DebtCentInv uid did s r0 := ⟨d, hd, hrem, hia⟩
  have remOf_of_inv : ∀ (s2 : Store) (r2 : ℚ), DebtCentInv uid did s2 r2 →
      remOf s2 uid did = r2 := by
    rintro s2 r2 ⟨df, hdf, hdrem, _⟩
    simp [remOf, hdf, hdrem]
  obtain ⟨rf, hIf, _, hge, hsum, _⟩ :=
    runPayments_cents uid did calls s r0 hI hc hr0 hcalls sf charges hrun
  refine ⟨?_, ?_, ?_⟩
  · rw [remOf_of_inv sf rf hIf]
    exact hsum
  · rw [remOf_of_inv sf rf hIf]
    exact hge
  · intro pre suf hsplit smid chmid hpre
    obtain ⟨rm, hIm, _, hgem, _, _⟩ :=
      runPayments_cents uid did pre s r0 hI hc hr0
        (fun pc hpc => hcalls pc (hsplit ▸ List.mem_append_left suf hpc))
        smid chmid hpre
    rw [remOf_of_inv smid rm hIm]
    exact hgem

/-- C6 witness: two cent-value payments (40 then 60) on the total-100 debt
conserve the amount exactly and keep the remaining amount non-negative. -/
theorem payDebt_conservation_witness :
    (([40, 60] : List ℚ).sum = 100 - remOf c6Final "u1" "d1" ∧
      0 ≤ remOf c6Final "u1" "d1" ∧
      (∀ pre suf, c6Calls = pre ++ suf →
        ∀ smid chmid, runPayments "u1" "d1" c6Store pre = some (smid, chmid) →
          0 ≤ remOf smid "u1" "d1")) :=
  payDebt_conservation "u1" "d1" c6Calls c6Store c6Debt 100
    (by decide) (by decide) (by decide) ⟨10000, by norm_num⟩ (by norm_num)
    (fun v hv => Option.noConfusion (show (none : Option ℚ) = some v from hv))
    (by
      intro pc hpc a ha
      simp only [c6Calls, List.mem_cons, List.not_mem_nil, or_false] at hpc
      rcases hpc with rfl | rfl
      · have h40 : (40 : ℚ) = a := by
          have := ha
          simp only at this
          injection this
        exact ⟨4000, by rw [← h40]; norm_num⟩
      · have h60 : (60 : ℚ) = a := by
          have := ha
          simp only at this
          injection this
        exact ⟨6000, by rw [← h60]; norm_num⟩)
    c6Final [40, 60] (by decide)

/-! ## Claim theorem: debt registration -/

theorem validateDebtInput_ok_elim {dto : DebtDTO} (h : validateDebtInput dto = .ok ()) :
    (∀ a, dto.amount = some a → 0 < a) ∧
      (∀ n, dto.totalInstallments = some n → 1 ≤ n) := by
  unfold validateDebtInput at h
  simp only [Bind.bind, Except.bind] at h
  cases h1 : validateRequiredString dto.title "title" with
  | error e => rw [h1] at h; cases h
  | ok u1 =>
    rw [h1] at h
    dsimp only at h
    cases h2 : validateRequiredString dto.credor "credor" with
    | error e => rw [h2] at h; cases h
    | ok u2 =>
      rw [h2] at h
      dsimp only at h
      constructor
      · intro a hA
        rw [hA] at h
        dsimp only at h
        by_contra hneg
        rw [show validatePositiveNumber a "amount"
            = .error ("O campo " ++ "amount" ++ " deve ser um número maior que 0") from by
          unfold validatePositiveNumber
          rw [if_neg hneg]] at h
        cases h
      · intro n hN
        rw [hN] at h
        dsimp only at h
        by_contra hneg
        rcases Option.eq_none_or_eq_some dto.amount with hA | ⟨a, hA⟩
        · rw [hA] at h
          dsimp only at h
          rw [show validateInstallments n "totalInstallments"
              = .error ("O campo " ++ "totalInstallments" ++
                " deve ser um inteiro maior ou igual a 1") from by
            unfold validateInstallments
            rw [if_pos (by omega)]] at h
          cases h
        · rw [hA] at h
          dsimp only at h
          cases h3 : validatePositiveNumber a "amount" with
          | error e => rw [h3] at h; cases h
          | ok u3 =>
            rw [h3] at h
            dsimp only at h
            rw [show validateInstallments n "totalInstallments"
                = .error ("O campo " ++ "totalInstallments" ++
                  " deve ser um inteiro maior ou igual a 1") from by
              unfold validateInstallments
              rw [if_pos (by omega)]] at h
            cases h

/-- C7: for every valid debt-registration input, the created debt record
starts with `paidInstallments = 0`, has
`installmentAmount = round2 (totalAmount / totalInstallments)` exactly
when both are known and null otherwise, and has
`remainingAmount = totalAmount` when the total is known and null when it
is undefined (`remainingAmount` and `amount` are stored as given, so both
equal the input amount option). -/
theorem registerDebt_initial_fields (dto : DebtDTO) (newId now : String)
    (h : validateDebtInput dto = .ok ()) :
    (newDebtRecord dto newId now).paidInstallments = 0 ∧
    (newDebtRecord dto newId now).remainingAmount = dto.amount ∧
    (newDebtRecord dto newId now).installmentAmount =
      (match dto.amount, dto.totalInstallments with
       | some a, some n => some (round2 (a / (n : ℚ)))
       | _, _ => none) := by
  obtain ⟨hamt, hti⟩ := validateDebtInput_ok_elim h
  refine ⟨rfl, ?_, ?_⟩
  · unfold newDebtRecord
    dsimp only
    rcases Option.eq_none_or_eq_some dto.amount with hA | ⟨a, hA⟩
    · simp [hA]
    · simp [hA, decide_eq_true (hamt a hA)]
  · unfold newDebtRecord
    dsimp only
    rcases Option.eq_none_or_eq_some dto.amount with hA | ⟨a, hA⟩ <;>
      rcases Option.eq_none_or_eq_some dto.totalInstallments with hT | ⟨n, hT⟩
    · simp [hA, hT]
    · simp [hA, hT]
    · simp [hA, hT]
    · simp [hA, hT, decide_eq_true (hti n hT), decide_eq_true (hamt a hA)]

/-- C7 witness: registering a 1200-total, 3-installment debt yields
`paidInstallments = 0`, `remainingAmount = some 1200` and
`installmentAmount = some 400`. -/
theorem registerDebt_initial_fields_witness :
    ((newDebtRecord c7Dto "d1" "t").paidInstallments = 0 ∧
      (newDebtRecord c7Dto "d1" "t").remainingAmount = c7Dto.amount ∧
      (newDebtRecord c7Dto "d1" "t").installmentAmount =
        (match c7Dto.amount, c7Dto.totalInstallments with
         | some a, some n => some (round2 (a / (n : ℚ)))
         | _, _ => none)) ∧
    (newDebtRecord c7Dto "d1" "t").installmentAmount = some 400 :=
  ⟨registerDebt_initial_fields c7Dto "d1" "t" (by decide), by decide⟩

/-- C8 counterexample to the claim as stated: with a validated 50-unit
deposit for an existing person, the state after the first of the two
session writes has the deposit record created but the balance not yet
credited — a reachable committed state that is neither "no effect" nor
"both effects", so the two writes are not one atomic transaction. -/
theorem registerDeposit_not_atomic :
    ¬ RegisterDepositAtomic c8Store "u1" c8Dto "dep1" "t0" := by
  unfold RegisterDepositAtomic
  decide

/-- C8 (amended): `registerDeposit` performs the deposit-record creation
and the unconditional balance credit as two separate session writes, not
one transaction.  When both writes complete, the deposit record is
appended and the person's balance is credited by the deposit's value; the
intermediate commit point (after the first write alone) already has the
deposit record but still the old balance. -/
theorem registerDeposit_two_writes (s : Store) (uid : String) (dto : DepositDTO)
    (newId now : String) (p : Person)
    (hu : validateRequiredField uid "userId" = .ok ())
    (hdto : validateDepositInput dto = .ok ())
    (hp : findPersonById s uid = some p) :
    registerDeposit s uid dto newId now
        = .ok (registerDepositCommitted s uid dto newId now 2) ∧
    (registerDepositCommitted s uid dto newId now 1).deposits
        = s.deposits ++ [(uid, newDepositRecord dto newId now)] ∧
    moneyOf (registerDepositCommitted s uid dto newId now 1) uid = moneyOf s uid ∧
    (registerDepositCommitted s uid dto newId now 2).deposits
        = s.deposits ++ [(uid, newDepositRecord dto newId now)] ∧
    moneyOf (registerDepositCommitted s uid dto newId now 2) uid
        = moneyOf s uid + dto.value := by
  have hdep1 : (addDeposit s uid (newDepositRecord dto newId now)).deposits
      = s.deposits ++ [(uid, newDepositRecord dto newId now)] := by
    unfold addDeposit
    rw [hp]
    rfl
  have hp2 : findPersonById (addDeposit s uid (newDepositRecord dto newId now)) uid
      = some p := by
    rw [findPersonById_addDeposit]
    exact hp
  refine ⟨?_, hdep1, moneyOf_addDeposit s uid _ uid, ?_, ?_⟩
  · unfold registerDeposit
    rw [hu]
    dsimp only
    rw [hdto]
    rfl
  · rw [show (registerDepositCommitted s uid dto newId now 2).deposits
        = (addDeposit s uid (newDepositRecord dto newId now)).deposits from rfl, hdep1]
  · rw [show registerDepositCommitted s uid dto newId now 2
        = addMoney (addDeposit s uid (newDepositRecord dto newId now)) uid dto.value
        from rfl,
      moneyOf_addMoney dto.value hp2, moneyOf_addDeposit]

/-- C8 witness: for the 100-balance person and the 50-unit deposit, both
writes together append the record and raise the balance by 50, while the
intermediate commit point has the record and the old balance. -/
theorem registerDeposit_two_writes_witness :
    registerDeposit c8Store "u1" c8Dto "dep1" "t0"
        = .ok (registerDepositCommitted c8Store "u1" c8Dto "dep1" "t0" 2) ∧
    (registerDepositCommitted c8Store "u1" c8Dto "dep1" "t0" 1).deposits
        = c8Store.deposits ++ [("u1", newDepositRecord c8Dto "dep1" "t0")] ∧
    moneyOf (registerDepositCommitted c8Store "u1" c8Dto "dep1" "t0" 1) "u1"
        = moneyOf c8Store "u1" ∧
    (registerDepositCommitted c8Store "u1" c8Dto "dep1" "t0" 2).deposits
        = c8Store.deposits ++ [("u1", newDepositRecord c8Dto "dep1" "t0")] ∧
    moneyOf (registerDepositCommitted c8Store "u1" c8Dto "dep1" "t0" 2) "u1"
        = moneyOf c8Store "u1" + c8Dto.value :=
  registerDeposit_two_writes c8Store "u1" c8Dto "dep1" "t0"
    { id := "u1", name := "U", money := some 100 }
    (by decide) (by decide) (by decide)

/-- C9: expense registration runs its dedicated checking function before
any store interaction; for every input whose value is not a finite number
strictly greater than 0, `register_expense` fails during validation — with
the positive-number `ValidationError` when the description passes its own
check — and the store is untouched. -/
theorem register_expense_value_validation (s : Store) (uid : String) (e : ExpenseDTO)
    (newId now : String)
    (hu : validateRequiredField uid "userId" = .ok ())
    (hval : ¬(0 < e.value)) :
    (∃ m, register_expense s uid e newId now = .error m) ∧
    registerExpenseStore s uid e newId now = s ∧
    (validateRequiredString e.description "description" = .ok () →
      register_expense s uid e newId now
        = .error "O campo value deve ser um número maior que 0") := by
  cases hdesc : validateRequiredString e.description "description" with
  | error m =>
      have hve : validateExpenseInput e = .error m := by
        unfold validateExpenseInput
        rw [hdesc]
        rfl
      have hre : register_expense s uid e newId now = .error m := by
        unfold register_expense
        rw [hu]
        dsimp only
        rw [hve]
      refine ⟨⟨m, hre⟩, ?_, ?_⟩
      · unfold registerExpenseStore
        rw [hre]
      · intro hok
        cases hok
  | ok uu =>
      have hve : validateExpenseInput e
          = .error "O campo value deve ser um número maior que 0" := by
        unfold validateExpenseInput
        rw [hdesc]
        show validatePositiveNumber e.value "value" = _
        unfold validatePositiveNumber
        rw [if_neg hval]
        decide
      have hre : register_expense s uid e newId now
          = .error "O campo value deve ser um número maior que 0" := by
        unfold register_expense
        rw [hu]
        dsimp only
        rw [hve]
      refine ⟨⟨_, hre⟩, ?_, fun _ => hre⟩
      unfold registerExpenseStore
      rw [hre]

/-- C9 witness: an expense with value 0 is rejected during validation with
the positive-number message and the store is untouched. -/
theorem register_expense_value_validation_witness :
    (∃ m, register_expense c10Store "u1" c9Dto "e1" "t0" = .error m) ∧
    registerExpenseStore c10Store "u1" c9Dto "e1" "t0" = c10Store ∧
    (validateRequiredString c9Dto.description "description" = .ok () →
      register_expense c10Store "u1" c9Dto "e1" "t0"
        = .error "O campo value deve ser um número maior que 0") :=
  register_expense_value_validation c10Store "u1" c9Dto "e1" "t0"
    (by decide) (by decide)

/-- C10: for a userId with no matching Person and a validated deposit
input, `registerDeposit` completes without error and returns the store
unchanged: both underlying writes match on the missing person and silently
affect zero records. -/
theorem registerDeposit_missing_person (s : Store) (uid : String) (dto : DepositDTO)
    (newId now : String)
    (hu : validateRequiredField uid "userId" = .ok ())
    (hd : validateDepositInput dto = .ok ())
    (hp : findPersonById s uid = none) :
    registerDeposit s uid dto newId now = .ok s := by
  have h1 : addDeposit s uid (newDepositRecord dto newId now) = s := by
    unfold addDeposit
    rw [hp]
    rfl
  unfold registerDeposit
  rw [hu]
  dsimp only
  rw [hd]
  dsimp only
  rw [h1, addMoney_of_missing dto.value hp]

/-- C10 witness: a 50-unit deposit for the absent id "ghost" succeeds and
leaves the store exactly as it was. -/
theorem registerDeposit_missing_person_witness :
    registerDeposit c10Store "ghost" c10Dto "dep1" "t0" = .ok c10Store :=
  registerDeposit_missing_person c10Store "ghost" c10Dto "dep1" "t0"
    (by decide) (by decide) (by decide)

example : validateDebtInput
    { title := "Aluguel", credor := "X", amount := some 1200, status := none,
      tags := [], dueDate := none, payDate := none, totalInstallments := some 3 }
    = .ok () := by decide

example : validatePositiveNumber 0 "value"
    = .error "O campo value deve ser um número maior que 0" := by decide
